import Mathlib

/-!
Verification of the otp-secure-drop repository: a shallow embedding of the
encrypt-upload edge function and the two versions of the verify-and-decrypt
edge function, together with the byte-level encodings they use (lowercase hex
for SHA-256 digests, base64 for key material) and the store side effects
(file row update, audit-log append, blob put).

Bytes are modelled as `Nat` values (< 256 where it matters); binary strings
(JS strings holding char codes) are `List Nat`.  The WebCrypto primitives
(SHA-256, PBKDF2, AES-GCM) are external platform collaborators, so the
pipelines are parametrised over a `Crypto` record of their functions; the
theorems that need the AES-GCM contract (authenticated decrypt inverts
encrypt) take it as a hypothesis, discharged in witnesses by a concrete
instance.
-/

namespace OtpSecureDrop

/-! ## Hex encoding of digests

The handlers render SHA-256 digests with
`hashArray.map(b => b.toString(16).padStart(2, "0")).join("")`:
each byte becomes two lowercase hex digits. -/

/-- Char code of the lowercase hex digit for `n < 16` (`0`-`9`, `a`-`f`). -/
def hexDigit (n : Nat) : Nat := if n < 10 then 48 + n else 87 + n

/-- `toHex l` is the char-code list of the lowercase hex rendering of the
byte list `l`, as produced by `b.toString(16).padStart(2, "0")` per byte. -/
def toHex : List Nat → List Nat
  | [] => []
  | b :: t => hexDigit (b / 16) :: hexDigit (b % 16) :: toHex t

/-! ## Base64 (`btoa` / `atob`)

The upload handler stores key material with `btoa(String.fromCharCode(...))`
and the verify handler recovers it with `atob`.  We model the binary string
as the byte list itself and implement standard base64 with `=` (char 61)
padding. -/

/-- The base64 alphabet: value `n < 64` to its char code
(`A`-`Z`, `a`-`z`, `0`-`9`, `+`, `/`). -/
def b64c (n : Nat) : Nat :=
  if n < 26 then 65 + n
  else if n < 52 then 71 + n
  else if n < 62 then n - 4
  else if n = 62 then 43
  else 47

/-- Inverse of the base64 alphabet: char code to its 6-bit value. -/
def b64d (c : Nat) : Nat :=
  if c = 43 then 62
  else if c = 47 then 63
  else if c < 58 then c + 4
  else if c < 91 then c - 65
  else c - 71

/-- JS `btoa` on a binary string: 3 bytes to 4 base64 chars, `=`-padded. -/
def btoa : List Nat → List Nat
  | [] => []
  | [a] => [b64c (a / 4), b64c (a % 4 * 16), 61, 61]
  | [a, b] => [b64c (a / 4), b64c (a % 4 * 16 + b / 16), b64c (b % 16 * 4), 61]
  | a :: b :: c :: rest =>
      b64c (a / 4) :: b64c (a % 4 * 16 + b / 16) ::
      b64c (b % 16 * 4 + c / 64) :: b64c (c % 64) :: btoa rest

/-- JS `atob` on a base64 string, returning the byte list of the binary
string (the handlers then read it out with `charCodeAt`). -/
def atob : List Nat → List Nat
  | c1 :: c2 :: c3 :: c4 :: rest =>
      if c3 = 61 then [b64d c1 * 4 + b64d c2 / 16]
      else if c4 = 61 then
        [b64d c1 * 4 + b64d c2 / 16, b64d c2 % 16 * 16 + b64d c3 / 4]
      else
        (b64d c1 * 4 + b64d c2 / 16) :: (b64d c2 % 16 * 16 + b64d c3 / 4) ::
        (b64d c3 % 4 * 64 + b64d c4) :: atob rest
  | _ => []

/-! ## Data model

From the migration (`public.files`, `public.access_logs`, enum
`file_status`).  Only the columns the two handlers read or write are kept;
timestamps are `Nat` clock values. -/

/-- `file_status` enum from the migration. -/
inductive FileStatus
  | active
  | expired
  | revoked
  | deleted
deriving DecidableEq

/-- JS rendering of a status, as interpolated into `File is ${...}`. -/
def statusText : FileStatus → String
  | .active => "active"
  | .expired => "expired"
  | .revoked => "revoked"
  | .deleted => "deleted"

/-- A row of `public.files` (the columns the handlers touch).  Hex-rendered
digests (`original_file_hash`, `otp_hash`) and base64-rendered key material
are stored as char-code lists, exactly as persisted. -/
structure FileRecord where
  original_filename : String
  encrypted_filename : String
  file_mimetype : String
  original_file_hash : List Nat
  encrypted_aes_key : List Nat
  key_salt : List Nat
  file_iv : List Nat
  key_iv : List Nat
  otp_hash : List Nat
  otp_expires_at : Nat
  max_access_attempts : Nat
  access_count : Nat
  one_time_access : Bool
  file_status : FileStatus
  last_access_timestamp : Option Nat
deriving DecidableEq

/-- A row appended to `public.access_logs`. -/
structure LogEntry where
  access_type : String
  access_status : String
  failure_reason : Option String
deriving DecidableEq

/-- Shared external state as seen by one verify-and-decrypt request: the
`files` row for the requested id (`none` if absent), the ciphertext blob
stored under that row's `encrypted_filename`, and the audit log. -/
structure Store where
  file : Option FileRecord
  blob : Option (List Nat)
  logs : List LogEntry
deriving DecidableEq

/-! ## Crypto collaborators

The handlers call the WebCrypto platform API (`crypto.subtle`): SHA-256,
PBKDF2 (fixed at 100000 iterations / SHA-256 on both sides), and AES-GCM
encrypt/decrypt — `wrapKey "raw"` / `unwrapKey "raw"` are AES-GCM over the
raw key bytes.  These are external collaborators, so the pipelines take
their functions as a parameter. -/

structure Crypto where
  sha256 : List Nat → List Nat
  pbkdf2 : List Nat → List Nat → Nat → List Nat
  gcmEncrypt : List Nat → List Nat → List Nat → List Nat
  gcmDecrypt : List Nat → List Nat → List Nat → Option (List Nat)

/-! ## The verify-and-decrypt handler -/

/-- The typed failures of the access pipeline, one per `throw` site (the
two crypto failures are the platform exceptions unwrap/decrypt raise). -/
inductive AccessErr
  | NotFound
  | NotAccessible (st : FileStatus)
  | OtpExpired
  | AttemptsExhausted
  | InvalidOtp
  | KeyUnwrapFailed
  | BlobMissing
  | DecryptionFailed
  | IntegrityMismatch
deriving DecidableEq

/-- Outcome of one request: the success payload `(fileData, filename,
mimeType)` of the 200 response — `fileData` being the base64 of the
decrypted bytes — or a typed failure. -/
inductive AccessOutcome
  | ok (fileData : List Nat) (filename : String) (mimeType : String)
  | err (e : AccessErr)
deriving DecidableEq

/-- The `throw new Error(...)` message of each failure, surfaced to the
caller by the catch block as `error.message`.  `KeyUnwrapFailed` and
`DecryptionFailed` are WebCrypto `OperationError` exceptions, not explicit
throws; we use the exception name. -/
def errMessage : AccessErr → String
  | .NotFound => "File not found"
  | .NotAccessible st => "File is " ++ statusText st
  | .OtpExpired => "OTP has expired"
  | .AttemptsExhausted => "Maximum access attempts reached"
  | .InvalidOtp => "Invalid OTP"
  | .KeyUnwrapFailed => "OperationError"
  | .BlobMissing => "Failed to download encrypted file"
  | .DecryptionFailed => "OperationError"
  | .IntegrityMismatch => "File integrity check failed - possible tampering detected"

/-- The body of the 400 response for a failing run (`{ error: e.message }`),
`none` on success. -/
def responseError : AccessOutcome → Option String
  | .ok _ _ _ => none
  | .err e => some (errMessage e)

/-- The pure decision of one verify-and-decrypt request, computed from a
snapshot of the files row and the blob — steps in source order: fetch,
status check, expiry check, attempts check, OTP hash compare, PBKDF2
derive, unwrap, blob download, decrypt, integrity check. -/
def computeOutcome (C : Crypto) (now : Nat) (otp : List Nat)
    (file : Option FileRecord) (blob : Option (List Nat)) : AccessOutcome :=
  match file with
  | none => .err .NotFound
  | some r =>
    if r.file_status ≠ FileStatus.active then .err (.NotAccessible r.file_status)
    else if r.otp_expires_at < now then .err .OtpExpired
    else if r.max_access_attempts ≤ r.access_count then .err .AttemptsExhausted
    else if toHex (C.sha256 otp) ≠ r.otp_hash then .err .InvalidOtp
    else
      let salt := atob r.key_salt
      let keyIv := atob r.key_iv
      let kek := C.pbkdf2 otp salt 100000
      let wrappedKey := atob r.encrypted_aes_key
      match C.gcmDecrypt kek keyIv wrappedKey with
      | none => .err .KeyUnwrapFailed
      | some dek =>
        match blob with
        | none => .err .BlobMissing
        | some ct =>
          match C.gcmDecrypt dek (atob r.file_iv) ct with
          | none => .err .DecryptionFailed
          | some pt =>
            if toHex (C.sha256 pt) ≠ r.original_file_hash then .err .IntegrityMismatch
            else .ok (btoa pt) r.original_filename r.file_mimetype

/-- Audit rows the handler inserts on a failure: only the OTP mismatch and
the integrity mismatch are logged; every other failure appends nothing. -/
def auditDelta : AccessErr → List LogEntry
  | .InvalidOtp => [⟨"otp_verify", "failure", some ("Invalid OTP")⟩]
  | .IntegrityMismatch => [⟨"download", "failure", some ("File integrity check failed")⟩]
  | _ => []

/-- The store writes of one request, given the `access_count` read in its
own snapshot.  The success path issues
`update({ access_count: file.access_count + 1, last_access_timestamp })
.eq("id", fileId)` — an unconditional write of the snapshot count plus one
to whatever row currently holds that id — then inserts a success log row.
The expiry path persists `file_status = 'expired'` the same way. -/
def applyEffect (now snapCount : Nat) (o : AccessOutcome) (s : Store) : Store :=
  match o with
  | .ok _ _ _ =>
      { s with
        file := s.file.map (fun cur =>
          { cur with access_count := snapCount + 1, last_access_timestamp := some now }),
        logs := s.logs ++ [⟨"download", "success", none⟩] }
  | .err .OtpExpired =>
      { s with file := s.file.map (fun cur => { cur with file_status := FileStatus.expired }) }
  | .err e => { s with logs := s.logs ++ auditDelta e }

/-- The `access_count` a request reads in its snapshot. -/
def snapCount : Option FileRecord → Nat
  | some r => r.access_count
  | none => 0

/-- One sequential verify-and-decrypt request (first handler version):
decide from the current store, then apply the effects. -/
def verifyAndDecrypt (C : Crypto) (now : Nat) (otp : List Nat) (s : Store) :
    AccessOutcome × Store :=
  let o := computeOutcome C now otp s.file s.blob
  (o, applyEffect now (snapCount s.file) o s)

/-- Two concurrent requests under the interleaving in which both `select`
calls complete before either `update`/`insert`: each decides from the same
snapshot, then their effects are applied in order.  Every store operation
the handler awaits is a separate call, so this interleaving is reachable. -/
def runTwoInterleaved (C : Crypto) (now : Nat) (otp : List Nat) (s : Store) :
    AccessOutcome × AccessOutcome × Store :=
  let o1 := computeOutcome C now otp s.file s.blob
  let o2 := computeOutcome C now otp s.file s.blob
  let s1 := applyEffect now (snapCount s.file) o1 s
  let s2 := applyEffect now (snapCount s.file) o2 s1
  (o1, o2, s2)

/-! ## The second verify-and-decrypt handler version

The migration file carries a second version of the handler that differs
only in byte plumbing: base64 fields are decoded with an explicit per-index
loop instead of `Uint8Array.from(atob(s), c => c.charCodeAt(0))`, and the
response body is built by concatenating `String.fromCharCode` over 64 KB
chunks instead of one spread. -/

/-- The explicit decode loop
`for (i = 0; i < bytes.length; i++) out[i] = bytes.charCodeAt(i)`. -/
def bytesFromLoop (l : List Nat) : List Nat :=
  (List.range l.length).map (fun i => l.getD i 0)

/-- The chunked binary-string builder, recursing one 64 KB chunk at a time;
`fuel` only bounds the recursion (one byte is consumed per step at least). -/
def chunkGo : Nat → List Nat → List Nat
  | 0, _ => []
  | _ + 1, [] => []
  | fuel + 1, a :: t => (a :: t).take 65536 ++ chunkGo fuel ((a :: t).drop 65536)

/-- `binaryString` accumulated by the second version's
`for (i = 0; i < n; i += 65536) binaryString += String.fromCharCode(...)`. -/
def buildBinaryString (l : List Nat) : List Nat := chunkGo (l.length + 1) l

/-- The second version's decision function: identical control flow, with the
loop-based decoders and the chunked response builder. -/
def computeOutcomeV2 (C : Crypto) (now : Nat) (otp : List Nat)
    (file : Option FileRecord) (blob : Option (List Nat)) : AccessOutcome :=
  match file with
  | none => .err .NotFound
  | some r =>
    if r.file_status ≠ FileStatus.active then .err (.NotAccessible r.file_status)
    else if r.otp_expires_at < now then .err .OtpExpired
    else if r.max_access_attempts ≤ r.access_count then .err .AttemptsExhausted
    else if toHex (C.sha256 otp) ≠ r.otp_hash then .err .InvalidOtp
    else
      let salt := bytesFromLoop (atob r.key_salt)
      let keyIv := bytesFromLoop (atob r.key_iv)
      let kek := C.pbkdf2 otp salt 100000
      let wrappedKey := bytesFromLoop (atob r.encrypted_aes_key)
      match C.gcmDecrypt kek keyIv wrappedKey with
      | none => .err .KeyUnwrapFailed
      | some dek =>
        match blob with
        | none => .err .BlobMissing
        | some ct =>
          match C.gcmDecrypt dek (bytesFromLoop (atob r.file_iv)) ct with
          | none => .err .DecryptionFailed
          | some pt =>
            if toHex (C.sha256 pt) ≠ r.original_file_hash then .err .IntegrityMismatch
            else .ok (btoa (buildBinaryString pt)) r.original_filename r.file_mimetype

/-- One request under the second handler version; the store effects are the
same statements as in the first version. -/
def verifyAndDecryptV2 (C : Crypto) (now : Nat) (otp : List Nat) (s : Store) :
    AccessOutcome × Store :=
  let o := computeOutcomeV2 C now otp s.file s.blob
  (o, applyEffect now (snapCount s.file) o s)

/-! ## The encrypt-upload handler -/

/-- The pure part of the encrypt-upload function, with the fresh random
values (DEK, salt, the two IVs, OTP) passed in explicitly: hash the
plaintext, AES-GCM-encrypt it under `dek`/`fileIv`, PBKDF2-derive the KEK
from the OTP and salt, wrap the DEK under `kek`/`keyIv`, hash the OTP, and
assemble the row the handler inserts — base64 key material, hex digests,
`otp_expires_at = now + validityMinutes * 60000`, and the schema defaults
`max_access_attempts = 3`, `access_count = 0`, `one_time_access = true`,
`file_status = 'active'` for the omitted columns.  Returns the row and the
ciphertext blob. -/
def encryptUploadPure (C : Crypto) (plaintext dek salt fileIv keyIv otp : List Nat)
    (now validityMinutes : Nat) (fileName fileType blobKey : String) :
    FileRecord × List Nat :=
  let originalFileHash := toHex (C.sha256 plaintext)
  let ct := C.gcmEncrypt dek fileIv plaintext
  let kek := C.pbkdf2 otp salt 100000
  let wrappedKey := C.gcmEncrypt kek keyIv dek
  let otpHash := toHex (C.sha256 otp)
  (⟨fileName, blobKey, fileType, originalFileHash,
    btoa wrappedKey, btoa salt, btoa fileIv, btoa keyIv,
    otpHash, now + validityMinutes * 60000,
    3, 0, true, FileStatus.active, none⟩, ct)

/-- The store a successful upload leaves behind for the new file id: the
inserted row, the stored blob, audit log empty here (the upload's own
success log row lives under the uploader's log view and is not read by the
access pipeline). -/
def uploadStore (C : Crypto) (plaintext dek salt fileIv keyIv otp : List Nat)
    (now validityMinutes : Nat) (fileName fileType blobKey : String) : Store :=
  let rc := encryptUploadPure C plaintext dek salt fileIv keyIv otp
    now validityMinutes fileName fileType blobKey
  ⟨some rc.1, some rc.2, []⟩

/-- Result of the effectful upload run. -/
inductive UploadResult
  | ok
  | blobPutFailed
  | insertFailed
deriving DecidableEq

/-- External state touched by one upload: the blob slot, the files row slot,
and the audit log. -/
structure UploadState where
  blob : Option (List Nat)
  record : Option FileRecord
  logs : List LogEntry
deriving DecidableEq

/-- The effectful tail of the encrypt-upload handler, with the outcomes of
the two fallible external calls passed as flags.  Source order: storage
upload, `if (uploadError) throw uploadError` (so a put failure prevents the
insert), DB insert, `if (dbError) throw dbError` (no compensating blob
delete, no failure log — the catch block only returns the error response),
then the `upload/success` audit insert. -/
def encryptUploadRun (C : Crypto) (plaintext dek salt fileIv keyIv otp : List Nat)
    (now validityMinutes : Nat) (fileName fileType blobKey : String)
    (blobPutOk insertOk : Bool) (s : UploadState) : UploadResult × UploadState :=
  let rc := encryptUploadPure C plaintext dek salt fileIv keyIv otp
    now validityMinutes fileName fileType blobKey
  if blobPutOk then
    let s1 : UploadState := { s with blob := some rc.2 }
    if insertOk then
      let s2 : UploadState :=
        { s1 with
          record := some rc.1,
          logs := s1.logs ++ [⟨"upload", "success", none⟩] }
      (.ok, s2)
    else (.insertFailed, s1)
  else (.blobPutFailed, s)

/-- OTP generation, `Math.floor(100000 + Math.random() * 900000)`, as a
function of the raw generator output `r ∈ [0, 1)`.  The generator the code
calls is `Math.random()`, not a CSPRNG. -/
def generateOtp (r : Rat) : Nat := Nat.floor ((100000 : Rat) + r * 900000)

/-! ## A concrete crypto instance and inputs for witnesses

`toyCrypto` satisfies the AES-GCM contract the theorems hypothesise
(authenticated decrypt inverts encrypt) with trivially computable
functions, so witnesses can evaluate whole runs. -/

def toyCrypto : Crypto where
  sha256 := fun l => l
  pbkdf2 := fun pw salt _ => pw ++ salt
  gcmEncrypt := fun k iv p => (k ++ iv) ++ p
  gcmDecrypt := fun k iv c =>
    if c.take (k ++ iv).length = k ++ iv then some (c.drop (k ++ iv).length) else none

def P0 : List Nat := [104, 101, 108, 108, 111]
def dek0 : List Nat := [1, 2]
def salt0 : List Nat := [3, 4]
def fileIv0 : List Nat := [5]
def keyIv0 : List Nat := [6]
def otp0 : List Nat := [49, 50, 51, 52, 53, 54]
def wrongOtp0 : List Nat := [48, 48, 48, 48, 48, 48]

/-- Store left by a concrete successful upload: validity 10 minutes at
clock 1000, so `otp_expires_at = 601000`. -/
def store0 : Store :=
  uploadStore toyCrypto P0 dek0 salt0 fileIv0 keyIv0 otp0 1000 10
    ("hello.txt") ("text/plain") ("user/uuid")

def rec0 : FileRecord :=
  (encryptUploadPure toyCrypto P0 dek0 salt0 fileIv0 keyIv0 otp0 1000 10
    ("hello.txt") ("text/plain") ("user/uuid")).1

/-- An exhausted row: `access_count = 3 = max_access_attempts`. -/
def recEx : FileRecord := { rec0 with access_count := 3 }

def storeEx : Store := ⟨some recEx, store0.blob, []⟩

/-- The uploaded store with the attempt cap lowered to 1. -/
def store1 : Store :=
  ⟨some { rec0 with max_access_attempts := 1 }, store0.blob, []⟩

/-- Empty external state before an upload. -/
def upState0 : UploadState := ⟨none, none, []⟩

/-- The store with the row's `one_time_access` flag overwritten — used to
state that the access pipeline never reads the flag. -/
def setOneTime (s : Store) (b : Bool) : Store :=
  { s with file := s.file.map (fun r => { r with one_time_access := b }) }

def isOk : AccessOutcome → Bool
  | .ok _ _ _ => true
  | .err _ => false

/-- The `max_access_attempts` of the store's row (0 if absent). -/
def maxAttempts (s : Store) : Nat :=
  match s.file with
  | some r => r.max_access_attempts
  | none => 0

/-! ## Helper lemmas -/

theorem b64d_b64c {n : Nat} (h : n < 64) : b64d (b64c n) = n := by
  simp only [b64c, b64d]
  split_ifs <;> omega

theorem b64c_ne_61 {n : Nat} (h : n < 64) : b64c n ≠ 61 := by
  simp only [b64c]
  split_ifs <;> omega

/-- Decoding inverts encoding on genuine byte lists. -/
theorem atob_btoa : ∀ l : List Nat, (∀ x ∈ l, x < 256) → atob (btoa l) = l
  | [], _ => rfl
  | [a], h => by
      have ha : a < 256 := h a (by simp)
      show atob [b64c (a / 4), b64c (a % 4 * 16), 61, 61] = [a]
      rw [atob, if_pos rfl, b64d_b64c (by omega), b64d_b64c (by omega)]
      congr 1
      omega
  | [a, b], h => by
      have ha : a < 256 := h a (by simp)
      have hb : b < 256 := h b (by simp)
      show atob [b64c (a / 4), b64c (a % 4 * 16 + b / 16), b64c (b % 16 * 4), 61]
          = [a, b]
      rw [atob, if_neg (b64c_ne_61 (by omega)), if_pos rfl,
        b64d_b64c (by omega), b64d_b64c (by omega), b64d_b64c (by omega)]
      congr 1
      · omega
      · congr 1
        omega
  | a :: b :: c :: rest, h => by
      have ha : a < 256 := h a (by simp)
      have hb : b < 256 := h b (by simp)
      have hc : c < 256 := h c (by simp)
      have ih := atob_btoa rest (fun x hx => h x (by simp [hx]))
      show atob (b64c (a / 4) :: b64c (a % 4 * 16 + b / 16) ::
          b64c (b % 16 * 4 + c / 64) :: b64c (c % 64) :: btoa rest)
          = a :: b :: c :: rest
      rw [atob, if_neg (b64c_ne_61 (by omega)), if_neg (b64c_ne_61 (by omega)),
        b64d_b64c (by omega), b64d_b64c (by omega), b64d_b64c (by omega),
        b64d_b64c (by omega), ih]
      congr 1
      · omega
      congr 1
      · omega
      congr 1
      omega

theorem toy_gcm_roundtrip (k iv p : List Nat) :
    toyCrypto.gcmDecrypt k iv (toyCrypto.gcmEncrypt k iv p) = some p := by
  simp only [toyCrypto]
  rw [List.take_left, List.drop_left, if_pos rfl]

/-- The per-index decode loop rebuilds exactly the list it reads. -/
theorem bytesFromLoop_eq (l : List Nat) : bytesFromLoop l = l := by
  induction l with
  | nil => rfl
  | cons a t ih =>
    simp only [bytesFromLoop, List.length_cons, List.range_succ_eq_map,
      List.map_cons, List.getD_cons_zero, List.map_map]
    exact congrArg (List.cons a) ih

theorem chunkGo_eq (fuel : Nat) : ∀ l : List Nat, l.length < fuel → chunkGo fuel l = l := by
  induction fuel with
  | zero => intro l h; omega
  | succ n ih =>
    intro l h
    match l with
    | [] => rfl
    | a :: t =>
      have hlen : ((a :: t).drop 65536).length < n := by
        simp only [List.length_drop, List.length_cons] at h ⊢
        omega
      rw [chunkGo, ih _ hlen, List.take_append_drop]

/-- The chunked `binaryString` builder reproduces the decrypted bytes. -/
theorem buildBinaryString_eq (l : List Nat) : buildBinaryString l = l :=
  chunkGo_eq (l.length + 1) l (Nat.lt_succ_self _)

/-- A successful decision implies the row was present, `active`, unexpired,
and strictly under the attempt cap. -/
theorem success_preconditions (C : Crypto) (now : Nat) (otp : List Nat)
    (f : Option FileRecord) (b : Option (List Nat))
    (fd : List Nat) (fn mt : String)
    (ho : computeOutcome C now otp f b = AccessOutcome.ok fd fn mt) :
    ∃ r, f = some r ∧ r.file_status = FileStatus.active ∧
      ¬ r.otp_expires_at < now ∧ r.access_count < r.max_access_attempts := by
  match f with
  | none => exact absurd ho (by simp [computeOutcome])
  | some r =>
    refine ⟨r, rfl, ?_⟩
    simp only [computeOutcome] at ho
    by_cases h1 : r.file_status = FileStatus.active
    · simp only [h1, ne_eq, not_true_eq_false, if_false] at ho
      by_cases h2 : r.otp_expires_at < now
      · simp [h2] at ho
      · simp only [h2, if_false] at ho
        by_cases h3 : r.max_access_attempts ≤ r.access_count
        · simp [h3] at ho
        · exact ⟨h1, h2, Nat.lt_of_not_le h3⟩
    · simp [h1] at ho

/-! ## Claim theorems -/

/-- C2: a sequential verify-and-decrypt run preserves
`access_count ≤ max_access_attempts`, and when the cap is already reached
(on an active, unexpired row — the checks that precede it in source order)
it fails `AttemptsExhausted` before consuming an attempt, with no counter
increment, no status change and no log row, whatever OTP was submitted. -/
theorem attempt_bound_invariant (C : Crypto) (now : Nat) (otp : List Nat) (s : Store) :
    ((∀ r, s.file = some r → r.access_count ≤ r.max_access_attempts) →
      ∀ r2, (verifyAndDecrypt C now otp s).2.file = some r2 →
        r2.access_count ≤ r2.max_access_attempts) ∧
    (∀ r, s.file = some r → r.file_status = FileStatus.active →
      ¬ r.otp_expires_at < now → r.max_access_attempts ≤ r.access_count →
      (verifyAndDecrypt C now otp s).1 = AccessOutcome.err AccessErr.AttemptsExhausted ∧
      (verifyAndDecrypt C now otp s).2 = s) := by
  constructor
  · intro hinv r2 h2
    simp only [verifyAndDecrypt] at h2
    cases ho : computeOutcome C now otp s.file s.blob with
    | ok fd fn mt =>
      obtain ⟨r, hf, _hact, _hexp, hlt⟩ :=
        success_preconditions C now otp s.file s.blob fd fn mt ho
      rw [ho] at h2
      simp only [applyEffect, hf, snapCount, Option.map_some'] at h2
      obtain rfl := (Option.some.injEq _ _).mp h2
      exact hlt
    | err e =>
      rw [ho] at h2
      cases e <;> simp only [applyEffect] at h2 <;>
        first
        | exact hinv r2 h2
        | (rcases Option.map_eq_some'.mp h2 with ⟨r, hsf, hr2⟩
           subst hr2
           exact hinv r hsf)
  · intro r hf ha he hc
    have ho : computeOutcome C now otp s.file s.blob
        = AccessOutcome.err AccessErr.AttemptsExhausted := by
      rw [hf]
      simp [computeOutcome, ha, he, hc]
    constructor
    · simp only [verifyAndDecrypt]
      rw [ho]
    · simp only [verifyAndDecrypt]
      rw [ho]
      simp [applyEffect, auditDelta]

/-- C2 witness: on a concrete exhausted row (`access_count = 3 =
max_access_attempts`, active, unexpired) the run fails `AttemptsExhausted`
and leaves the store untouched. -/
theorem attempt_bound_invariant_witness :
    (verifyAndDecrypt toyCrypto 2000 otp0 storeEx).1
      = AccessOutcome.err AccessErr.AttemptsExhausted ∧
    (verifyAndDecrypt toyCrypto 2000 otp0 storeEx).2 = storeEx :=
  (attempt_bound_invariant toyCrypto 2000 otp0 storeEx).2 recEx (by rfl)
    (by decide) (by decide) (by decide)

/-- C4: on an active row read after `otp_expires_at` the run persists
`file_status = 'expired'` and fails `OtpExpired` regardless of the OTP;
a row that is already `expired` is rejected `NotAccessible` by the status
check alone, independently of the crypto functions, clock, OTP and blob
(so no decryption is attempted), in particular on the store the expiring
run leaves behind; and no other path of the pipeline moves an active row
to `expired`. -/
theorem expiry_decay (C : Crypto) (now : Nat) (otp : List Nat) (s : Store)
    (r : FileRecord) (hf : s.file = some r) (ha : r.file_status = FileStatus.active)
    (he : r.otp_expires_at < now) :
    (verifyAndDecrypt C now otp s).1 = AccessOutcome.err AccessErr.OtpExpired ∧
    (verifyAndDecrypt C now otp s).2.file
      = some { r with file_status := FileStatus.expired } ∧
    (∀ C2 now2 otp2 b2,
      computeOutcome C2 now2 otp2 (some { r with file_status := FileStatus.expired }) b2
        = AccessOutcome.err (AccessErr.NotAccessible FileStatus.expired)) ∧
    (∀ C2 now2 otp2,
      (verifyAndDecrypt C2 now2 otp2 (verifyAndDecrypt C now otp s).2).1
        = AccessOutcome.err (AccessErr.NotAccessible FileStatus.expired)) ∧
    (∀ C3 now3 otp3 s3 r3, s3.file = some r3 → r3.file_status = FileStatus.active →
      (verifyAndDecrypt C3 now3 otp3 s3).1 ≠ AccessOutcome.err AccessErr.OtpExpired →
      ∀ r4, (verifyAndDecrypt C3 now3 otp3 s3).2.file = some r4 →
        r4.file_status = FileStatus.active) := by
  have ho : computeOutcome C now otp s.file s.blob
      = AccessOutcome.err AccessErr.OtpExpired := by
    rw [hf]
    simp [computeOutcome, ha, he]
  have hpost : (verifyAndDecrypt C now otp s).2.file
      = some { r with file_status := FileStatus.expired } := by
    simp only [verifyAndDecrypt]
    rw [ho]
    simp [applyEffect, hf]
  refine ⟨by simp only [verifyAndDecrypt]; rw [ho], hpost, ?_, ?_, ?_⟩
  · intro C2 now2 otp2 b2
    simp [computeOutcome]
  · intro C2 now2 otp2
    show computeOutcome C2 now2 otp2 (verifyAndDecrypt C now otp s).2.file
        (verifyAndDecrypt C now otp s).2.blob = _
    rw [hpost]
    simp [computeOutcome]
  · intro C3 now3 otp3 s3 r3 hf3 ha3 hne r4 h4
    simp only [verifyAndDecrypt] at hne h4
    cases ho3 : computeOutcome C3 now3 otp3 s3.file s3.blob with
    | ok fd fn mt =>
      rw [ho3] at h4
      simp only [applyEffect, hf3, snapCount, Option.map_some'] at h4
      obtain rfl := (Option.some.injEq _ _).mp h4
      exact ha3
    | err e =>
      rw [ho3] at h4 hne
      cases e <;> simp only [applyEffect] at h4 <;>
        first
        | (exact absurd rfl hne)
        | (rw [hf3] at h4
           obtain rfl := (Option.some.injEq _ _).mp h4
           exact ha3)

/-- C4 witness: a concrete request at clock 999999999 (past the expiry
601000) fails `OtpExpired` even with the correct OTP, and a second request
against the store it leaves behind fails `NotAccessible(expired)`. -/
theorem expiry_decay_witness :
    (verifyAndDecrypt toyCrypto 999999999 otp0 store0).1
      = AccessOutcome.err AccessErr.OtpExpired ∧
    (verifyAndDecrypt toyCrypto 2000 otp0
        (verifyAndDecrypt toyCrypto 999999999 otp0 store0).2).1
      = AccessOutcome.err (AccessErr.NotAccessible FileStatus.expired) := by
  have h := expiry_decay toyCrypto 999999999 otp0 store0 rec0 (by rfl)
    (by decide) (by decide)
  exact ⟨h.1, h.2.2.2.1 toyCrypto 2000 otp0⟩

/-- C5: when the submitted OTP hashes to something other than the stored
`otp_hash` (on a row that passes the earlier status/expiry/attempt gates,
which precede the OTP check in source order), the run inserts an
`otp_verify`/`failure` audit row and fails `InvalidOtp`, leaving the files
row and the blob unchanged. -/
theorem wrong_otp_rejected (C : Crypto) (now : Nat) (otp : List Nat) (s : Store)
    (r : FileRecord) (hf : s.file = some r) (ha : r.file_status = FileStatus.active)
    (he : ¬ r.otp_expires_at < now) (hc : r.access_count < r.max_access_attempts)
    (hh : toHex (C.sha256 otp) ≠ r.otp_hash) :
    (verifyAndDecrypt C now otp s).1 = AccessOutcome.err AccessErr.InvalidOtp ∧
    (verifyAndDecrypt C now otp s).2.file = some r ∧
    (verifyAndDecrypt C now otp s).2.blob = s.blob ∧
    (verifyAndDecrypt C now otp s).2.logs
      = s.logs ++ [⟨"otp_verify", "failure", some ("Invalid OTP")⟩] := by
  have hc2 : ¬ r.max_access_attempts ≤ r.access_count := Nat.not_le.mpr hc
  have ho : computeOutcome C now otp s.file s.blob
      = AccessOutcome.err AccessErr.InvalidOtp := by
    rw [hf]
    simp [computeOutcome, ha, he, hc2, hh]
  refine ⟨?_, ?_, ?_, ?_⟩ <;> (simp only [verifyAndDecrypt]; rw [ho]) <;>
    simp [applyEffect, auditDelta, hf]

/-- C5 witness: a concrete wrong OTP against the uploaded store fails
`InvalidOtp`, appends exactly the `otp_verify`/`failure` row, and leaves
the files row and blob as uploaded. -/
theorem wrong_otp_rejected_witness :
    (verifyAndDecrypt toyCrypto 2000 wrongOtp0 store0).1
      = AccessOutcome.err AccessErr.InvalidOtp ∧
    (verifyAndDecrypt toyCrypto 2000 wrongOtp0 store0).2.file = some rec0 ∧
    (verifyAndDecrypt toyCrypto 2000 wrongOtp0 store0).2.blob = store0.blob ∧
    (verifyAndDecrypt toyCrypto 2000 wrongOtp0 store0).2.logs
      = store0.logs ++ [⟨"otp_verify", "failure", some ("Invalid OTP")⟩] :=
  wrong_otp_rejected toyCrypto 2000 wrongOtp0 store0 rec0 (by rfl)
    (by decide) (by decide) (by decide) (by decide)

/-- The decision function never reads `one_time_access`: overwriting the
flag on the row changes nothing in the outcome. -/
theorem computeOutcome_setOneTime (C : Crypto) (now : Nat) (otp : List Nat)
    (f : Option FileRecord) (b : Option (List Nat)) (flag : Bool) :
    computeOutcome C now otp
        (f.map (fun r => { r with one_time_access := flag })) b
      = computeOutcome C now otp f b := by
  cases f <;> rfl

/-- C9: a fully successful run mutates exactly `access_count` (one more
than the value it read) and `last_access_timestamp`; every other column —
status, flags, key material — is carried over unchanged; the row was and
stays `active`; the blob is untouched; only the `download`/`success` log
row is appended; and the pipeline never reads `one_time_access`: flipping
the flag changes neither the outcome nor any other written column. -/
theorem success_frame (C : Crypto) (now : Nat) (otp : List Nat) (s : Store)
    (r : FileRecord) (fd : List Nat) (fn mt : String)
    (hf : s.file = some r)
    (ho : (verifyAndDecrypt C now otp s).1 = AccessOutcome.ok fd fn mt) :
    (verifyAndDecrypt C now otp s).2.file
      = some { r with
          access_count := r.access_count + 1,
          last_access_timestamp := some now } ∧
    r.file_status = FileStatus.active ∧
    (verifyAndDecrypt C now otp s).2.blob = s.blob ∧
    (verifyAndDecrypt C now otp s).2.logs
      = s.logs ++ [⟨"download", "success", none⟩] ∧
    (∀ flag : Bool,
      (verifyAndDecrypt C now otp (setOneTime s flag)).1
        = AccessOutcome.ok fd fn mt ∧
      (verifyAndDecrypt C now otp (setOneTime s flag)).2.file
        = some { r with
            one_time_access := flag,
            access_count := r.access_count + 1,
            last_access_timestamp := some now }) := by
  simp only [verifyAndDecrypt] at ho
  obtain ⟨r1, hf1, hact, _, _⟩ :=
    success_preconditions C now otp s.file s.blob fd fn mt ho
  rw [hf] at hf1
  obtain rfl := (Option.some.injEq _ _).mp hf1
  refine ⟨?_, hact, ?_, ?_, ?_⟩
  · simp only [verifyAndDecrypt]
    rw [ho]
    simp [applyEffect, hf, snapCount]
  · simp only [verifyAndDecrypt]
    rw [ho]
    simp [applyEffect]
  · simp only [verifyAndDecrypt]
    rw [ho]
    simp [applyEffect]
  · intro flag
    have hoflag : computeOutcome C now otp (setOneTime s flag).file
        (setOneTime s flag).blob = AccessOutcome.ok fd fn mt := by
      simp only [setOneTime]
      rw [computeOutcome_setOneTime]
      exact ho
    constructor
    · exact hoflag
    · show (applyEffect now (snapCount (setOneTime s flag).file)
          (computeOutcome C now otp (setOneTime s flag).file
            (setOneTime s flag).blob) (setOneTime s flag)).file = _
      rw [hoflag]
      simp [applyEffect, setOneTime, hf, snapCount]

/-- C9 witness: the concrete successful run increments the counter by one,
stamps the clock, stays `active`, and is insensitive to the
`one_time_access` flag. -/
theorem success_frame_witness :
    (verifyAndDecrypt toyCrypto 2000 otp0 store0).2.file
      = some { rec0 with
          access_count := rec0.access_count + 1,
          last_access_timestamp := some 2000 } ∧
    rec0.file_status = FileStatus.active ∧
    (verifyAndDecrypt toyCrypto 2000 otp0 (setOneTime store0 false)).1
      = AccessOutcome.ok (btoa P0) ("hello.txt") ("text/plain") := by
  have h := success_frame toyCrypto 2000 otp0 store0 rec0 (btoa P0)
    ("hello.txt") ("text/plain") (by rfl) (by decide)
  exact ⟨h.1, h.2.1, (h.2.2.2.2 false).1⟩

/-- C3: uploading plaintext `P` and then accessing the resulting store with
the same OTP (before expiry) succeeds, the response body carries the base64
of exactly `P`, and the hash recomputed over the decrypted bytes is the
stored `original_file_hash`.  Hypotheses: the AES-GCM contract (decrypt
inverts encrypt under the same key/iv) and byte-ness of the values that
round-trip through base64. -/
theorem upload_access_round_trip (C : Crypto)
    (P dek salt fileIv keyIv otp : List Nat)
    (now validity now2 : Nat) (fn ft bk : String)
    (hgcm : ∀ k iv p, C.gcmDecrypt k iv (C.gcmEncrypt k iv p) = some p)
    (hsalt : ∀ x ∈ salt, x < 256)
    (hfiv : ∀ x ∈ fileIv, x < 256)
    (hkiv : ∀ x ∈ keyIv, x < 256)
    (hwrap : ∀ x ∈ C.gcmEncrypt (C.pbkdf2 otp salt 100000) keyIv dek, x < 256)
    (hnow : ¬ now + validity * 60000 < now2) :
    (verifyAndDecrypt C now2 otp
        (uploadStore C P dek salt fileIv keyIv otp now validity fn ft bk)).1
      = AccessOutcome.ok (btoa P) fn ft ∧
    toHex (C.sha256 P)
      = (encryptUploadPure C P dek salt fileIv keyIv otp
          now validity fn ft bk).1.original_file_hash := by
  have h3 : ¬ (3 : Nat) ≤ 0 := by omega
  constructor
  · simp only [verifyAndDecrypt, uploadStore, encryptUploadPure, computeOutcome,
      atob_btoa salt hsalt, atob_btoa fileIv hfiv, atob_btoa keyIv hkiv,
      atob_btoa _ hwrap, hgcm, hnow, h3, ne_eq, not_true_eq_false, if_false,
      not_false_eq_true, ite_false, ite_true]
  · rfl

/-- C3 witness: the concrete upload-then-access run returns the plaintext
`P0` (base64-encoded in the body) and the stored hash matches. -/
theorem upload_access_round_trip_witness :
    (verifyAndDecrypt toyCrypto 2000 otp0 store0).1
      = AccessOutcome.ok (btoa P0) ("hello.txt") ("text/plain") ∧
    toHex (toyCrypto.sha256 P0) = rec0.original_file_hash := by
  have h := upload_access_round_trip toyCrypto P0 dek0 salt0 fileIv0 keyIv0 otp0
    1000 10 2000 ("hello.txt") ("text/plain") ("user/uuid")
    toy_gcm_roundtrip (by decide) (by decide) (by decide) (by decide) (by decide)
  exact h

/-- C1 counterexample: on a concrete row with `max_access_attempts = 1`,
two concurrent correct-OTP requests under the read-read-write-write
interleaving both decrypt successfully — 2 successes against a cap of 1 —
because the step-10 counter write is not a conditional update. -/
theorem concurrent_requests_exceed_attempt_cap :
    maxAttempts store1 = 1 ∧
    isOk (runTwoInterleaved toyCrypto 2000 otp0 store1).1 = true ∧
    isOk (runTwoInterleaved toyCrypto 2000 otp0 store1).2.1 = true := by
  refine ⟨by decide, by decide, by decide⟩

/-- C1 amended: the step-10 write is an unconditional
`update({access_count: snapshot+1}).eq(id)`: whenever a request's snapshot
decision is a success, both requests of the read-read-write-write
interleaving succeed, and the final row holds only `snapshot + 1` (the
second write overwrites the first — a lost update), so N+1 concurrent
correct-OTP requests can exceed the attempt cap. -/
theorem success_update_unconditional (C : Crypto) (now : Nat) (otp : List Nat)
    (s : Store) (fd : List Nat) (fn mt : String)
    (ho : computeOutcome C now otp s.file s.blob = AccessOutcome.ok fd fn mt) :
    (runTwoInterleaved C now otp s).1 = AccessOutcome.ok fd fn mt ∧
    (runTwoInterleaved C now otp s).2.1 = AccessOutcome.ok fd fn mt ∧
    (∀ r, s.file = some r →
      (runTwoInterleaved C now otp s).2.2.file
        = some { r with
            access_count := r.access_count + 1,
            last_access_timestamp := some now }) := by
  refine ⟨ho, ho, ?_⟩
  intro r hf
  show (applyEffect now (snapCount s.file)
      (computeOutcome C now otp s.file s.blob)
      (applyEffect now (snapCount s.file)
        (computeOutcome C now otp s.file s.blob) s)).file = _
  rw [ho]
  simp [applyEffect, hf, snapCount]

/-- C1 amended witness: the concrete interleaved run on `store1`. -/
theorem success_update_unconditional_witness :
    (runTwoInterleaved toyCrypto 2000 otp0 store1).1
      = AccessOutcome.ok (btoa P0) ("hello.txt") ("text/plain") ∧
    (runTwoInterleaved toyCrypto 2000 otp0 store1).2.1
      = AccessOutcome.ok (btoa P0) ("hello.txt") ("text/plain") := by
  have h := success_update_unconditional toyCrypto 2000 otp0 store1 (btoa P0)
    ("hello.txt") ("text/plain") (by decide)
  exact ⟨h.1, h.2.1⟩

/-- C6 counterexample: two concrete failing runs surface different,
stage-identifying messages through the catch block (`error.message`), not
one generic "verification failed" string. -/
theorem failure_messages_distinguish_stage :
    responseError (verifyAndDecrypt toyCrypto 2000 wrongOtp0 store0).1
      = some ("Invalid OTP") ∧
    responseError (verifyAndDecrypt toyCrypto 999999999 otp0 store0).1
      = some ("OTP has expired") ∧
    ("Invalid OTP" : String) ≠ "OTP has expired" ∧
    ("Invalid OTP" : String) ≠ "Verification failed" := by
  refine ⟨by decide, by decide, by decide, by decide⟩

/-- C6 amended: each failing run's user-visible body is the specific
message of the stage that threw (`error.message`), and the audit log
records the failure only for `InvalidOtp` and `IntegrityMismatch`; every
other failure kind appends no audit row. -/
theorem failure_response_specific (C : Crypto) (now : Nat) (otp : List Nat)
    (s : Store) (e : AccessErr)
    (ho : (verifyAndDecrypt C now otp s).1 = AccessOutcome.err e) :
    responseError (verifyAndDecrypt C now otp s).1 = some (errMessage e) ∧
    (verifyAndDecrypt C now otp s).2.logs = s.logs ++ auditDelta e := by
  constructor
  · rw [ho]
    rfl
  · simp only [verifyAndDecrypt] at ho ⊢
    rw [ho]
    cases e <;> simp [applyEffect, auditDelta]

/-- C6 amended witness: the exhausted-row failure carries its own message
(`Maximum access attempts reached`) and appends no audit row. -/
theorem failure_response_specific_witness :
    responseError (verifyAndDecrypt toyCrypto 2000 otp0 storeEx).1
      = some (errMessage AccessErr.AttemptsExhausted) ∧
    (verifyAndDecrypt toyCrypto 2000 otp0 storeEx).2.logs
      = storeEx.logs ++ auditDelta AccessErr.AttemptsExhausted :=
  failure_response_specific toyCrypto 2000 otp0 storeEx
    AccessErr.AttemptsExhausted (by decide)

/-- C7 counterexample: a concrete upload whose blob put succeeds and whose
row insert fails ends with the blob still stored (no compensating delete),
no row, and an empty audit log (no `upload/failure` entry). -/
theorem insert_failure_leaves_orphan_blob :
    (encryptUploadRun toyCrypto P0 dek0 salt0 fileIv0 keyIv0 otp0 1000 10
        ("hello.txt") ("text/plain") ("user/uuid") true false upState0).1
      = UploadResult.insertFailed ∧
    (encryptUploadRun toyCrypto P0 dek0 salt0 fileIv0 keyIv0 otp0 1000 10
        ("hello.txt") ("text/plain") ("user/uuid") true false upState0).2.blob
      = some (encryptUploadPure toyCrypto P0 dek0 salt0 fileIv0 keyIv0 otp0
          1000 10 ("hello.txt") ("text/plain") ("user/uuid")).2 ∧
    (encryptUploadRun toyCrypto P0 dek0 salt0 fileIv0 keyIv0 otp0 1000 10
        ("hello.txt") ("text/plain") ("user/uuid") true false upState0).2.record
      = none ∧
    (encryptUploadRun toyCrypto P0 dek0 salt0 fileIv0 keyIv0 otp0 1000 10
        ("hello.txt") ("text/plain") ("user/uuid") true false upState0).2.logs
      = [] := by
  refine ⟨by decide, by decide, by decide, by decide⟩

/-- C7 amended: a blob-store put failure aborts before the row insert
(store unchanged — so no orphaned metadata), but a row-insert failure
leaves the already-stored blob in place with no compensating delete, and
neither failure appends any `upload/failure` audit row — the only audit
write is the `upload/success` row on full success. -/
theorem upload_failure_paths (C : Crypto)
    (plaintext dek salt fileIv keyIv otp : List Nat)
    (now validity : Nat) (fn ft bk : String) (s : UploadState) (insertOk : Bool) :
    encryptUploadRun C plaintext dek salt fileIv keyIv otp now validity fn ft bk
        false insertOk s = (UploadResult.blobPutFailed, s) ∧
    encryptUploadRun C plaintext dek salt fileIv keyIv otp now validity fn ft bk
        true false s
      = (UploadResult.insertFailed,
         { s with blob := some (encryptUploadPure C plaintext dek salt fileIv
             keyIv otp now validity fn ft bk).2 }) := by
  constructor <;> rfl

/-- C8 (range part; the cryptographic-strength part is a code bug — the
generator actually called is `Math.random()`): for every generator output
`r ∈ [0, 1)` the produced OTP value lies in `[100000, 999999]`, i.e. it is
exactly six decimal digits. -/
theorem generateOtp_range (r : Rat) (h0 : 0 ≤ r) (h1 : r < 1) :
    100000 ≤ generateOtp r ∧ generateOtp r ≤ 999999 := by
  constructor
  · have h : (100000 : Rat) ≤ 100000 + r * 900000 := by nlinarith
    exact Nat.le_floor (by exact_mod_cast h)
  · have h2 : (100000 : Rat) + r * 900000 < 1000000 := by nlinarith
    have h3 : (0 : Rat) ≤ 100000 + r * 900000 := by nlinarith
    have h4 : generateOtp r < 1000000 :=
      (Nat.floor_lt h3).mpr (by exact_mod_cast h2)
    omega

theorem generateOtp_range_witness :
    100000 ≤ generateOtp 0 ∧ generateOtp 0 ≤ 999999 :=
  generateOtp_range 0 (by norm_num) (by norm_num)

/-- C10: the two verify-and-decrypt handler versions are extensionally
equal — for every crypto instance, clock, submitted OTP and store, they
return the same outcome (same success payload or same error) and leave the
same store (same row mutation, same audit rows). -/
theorem handler_versions_agree (C : Crypto) (now : Nat) (otp : List Nat)
    (s : Store) :
    verifyAndDecryptV2 C now otp s = verifyAndDecrypt C now otp s := by
  have hco : computeOutcomeV2 C now otp s.file s.blob
      = computeOutcome C now otp s.file s.blob := by
    simp only [computeOutcomeV2, computeOutcome, bytesFromLoop_eq,
      buildBinaryString_eq]
  simp only [verifyAndDecryptV2, verifyAndDecrypt, hco]

end OtpSecureDrop
